import Mathlib

/-!
Verification of the bankroll ledger engine of the bet-tracker repository.

The authoritative ledger logic lives in the SQL migration embedded in
`src/src/components/Layout.tsx` (tables `banks` and `bets`, row-level
security policies, and the PL/pgSQL trigger function `update_bank_balance`
installed as `CREATE TRIGGER update_bet_profit BEFORE INSERT OR UPDATE ON
public.bets FOR EACH ROW`).  The client-side write and read paths are in
`src/src/pages/DailyBets.tsx` (`handleSubmit` of the NewBet form,
`calculateDailySummary`), `src/src/pages/History.tsx` (`fetchBets`,
`updateBetStatus`, `ITEMS_PER_PAGE`) and `src/unnamed/part_000`
(`fetchDailyStats` of the dashboard).

Embedding notes, faithful to PostgreSQL semantics:
* Monetary `DECIMAL(10,2)` values are modelled as `ℚ`.
* A `BEFORE INSERT` row trigger runs before the new row is stored, and a
  `BEFORE UPDATE` row trigger runs before the row version is replaced, so
  any query the trigger body executes against `public.bets` sees the table
  WITHOUT the pending insert/update.  The embedding therefore passes the
  pre-write table to the trigger body.
* `SUM(profit)` ignores SQL `NULL` values and `COALESCE(SUM(profit), 0)`
  turns an empty sum into 0; `profit : Option ℚ` with `Option.getD 0`
  mirrors both.
* The trigger function is `SECURITY DEFINER`, so its `UPDATE public.banks`
  statement is NOT filtered by the caller's row-level-security policies:
  it updates the bank row whose `id = NEW.bank_id` whoever owns it, and
  its `SUM` reads all rows of `public.bets`.
* The row-level security policies (`USING (auth.uid() = user_id)` for
  SELECT/UPDATE/DELETE, `WITH CHECK (auth.uid() = user_id)` for INSERT)
  are modelled as an explicit `caller` argument filtering each operation.
* There is no trigger on DELETE: `deleteBet` only removes the row.
-/

namespace BetTracker

/-- Outcome of a bet: the SQL enum `bet_status AS ENUM ('won', 'lost', 'open')`.
`open` is a Lean keyword, so the third constructor is spelled `open_`. -/
inductive BetStatus where
  | won
  | lost
  | open_
  deriving DecidableEq

/-- A row of `public.bets`: `id`, `bank_id`, `user_id`, `amount DECIMAL`,
`odds DECIMAL`, `status bet_status`, `profit DECIMAL` (nullable),
`bet_date DATE`, `created_at TIMESTAMPTZ` (dates and timestamps are
abstracted as `Nat`; `bet_type` and `description` carry no ledger logic
and are omitted). -/
structure Bet where
  id : Nat
  bank_id : Nat
  user_id : Nat
  amount : ℚ
  odds : ℚ
  status : BetStatus
  profit : Option ℚ
  bet_date : Nat
  created_at : Nat
  deriving DecidableEq

/-- A row of `public.banks`: `id`, `user_id`, `initial_balance`,
`current_balance` (`name` and the timestamps carry no ledger logic). -/
structure Bank where
  id : Nat
  user_id : Nat
  initial_balance : ℚ
  current_balance : ℚ
  deriving DecidableEq

/-- The persistent state: the two tables. -/
structure DB where
  banks : List Bank
  bets : List Bet
  deriving DecidableEq

/-- Profit computation of the trigger function `update_bank_balance`
(Layout.tsx lines 285-292): `won` gives `amount * odds - amount`, `lost`
gives `-amount`, anything else gives `0`.  This is the Settlement Engine. -/
def computeProfit (amount odds : ℚ) (status : BetStatus) : ℚ :=
  match status with
  | .won => amount * odds - amount
  | .lost => -amount
  | .open_ => 0

/-- Boolean test for the SQL condition `status = 'open'`. -/
def isOpenStatus : BetStatus → Bool
  | .open_ => true
  | .won => false
  | .lost => false

/-- The subquery `SELECT COALESCE(SUM(profit), 0) FROM public.bets WHERE
bank_id = bankId AND status != 'open'` (Layout.tsx lines 296-300).
SQL `SUM` skips `NULL` profits, hence `Option.getD 0`. -/
def profitSum (bets : List Bet) (bankId : Nat) : ℚ :=
  (bets.filter (fun b => b.bank_id == bankId && !(isOpenStatus b.status))).foldr
    (fun b acc => b.profit.getD 0 + acc) 0

/-- The statement `UPDATE public.banks SET current_balance =
initial_balance + (...) WHERE id = bankId` of the trigger body
(Layout.tsx lines 295-302).  `SECURITY DEFINER`: no owner filter. -/
def reconcileBanks (banks : List Bank) (bets : List Bet) (bankId : Nat) : List Bank :=
  banks.map (fun bk =>
    if bk.id == bankId then
      { bk with current_balance := bk.initial_balance + profitSum bets bankId }
    else bk)

/-- The whole trigger function `update_bank_balance` applied to a row
`new` (the `NEW` record), against the table state `db` as the BEFORE
trigger sees it — i.e. WITHOUT the pending insert/update.  Returns the
updated database (bank balances) together with the returned `NEW` row,
whose `profit` has been overwritten from `(amount, odds, status)`. -/
def update_bank_balance (db : DB) (new : Bet) : DB × Bet :=
  let settled : Bet :=
    { new with profit := some (computeProfit new.amount new.odds new.status) }
  ({ db with banks := reconcileBanks db.banks db.bets settled.bank_id }, settled)

/-- Standalone Balance Reconciler step for one bankroll: exactly the
`UPDATE public.banks` statement of the trigger, lifted to `DB`. -/
def reconcile (db : DB) (bankId : Nat) : DB :=
  { db with banks := reconcileBanks db.banks db.bets bankId }

/-- `INSERT INTO public.bets` as executed by the client (DailyBets.tsx
`handleSubmit`, lines 430-438): the INSERT policy `WITH CHECK (auth.uid()
= user_id)` rejects a row whose `user_id` is not the caller (leaving the
state unchanged); otherwise the BEFORE INSERT trigger fires and the
returned `NEW` row is appended to the table. -/
def insertBet (db : DB) (caller : Nat) (new : Bet) : DB :=
  if new.user_id == caller then
    let p := update_bank_balance db new
    { p.1 with bets := p.1.bets ++ [p.2] }
  else db

/-- Wager outcome update: `supabase.from("bets").update({ status }).eq("id",
betId)` (History.tsx lines 110-132 and DailyBets.tsx lines 98-120), under
the UPDATE policy `USING (auth.uid() = user_id)`.  If the caller owns a row
with that id, the BEFORE UPDATE trigger fires on the new row version
against the pre-update table, then the row is replaced; otherwise zero
rows match and the state is unchanged. -/
def updateBetStatus (db : DB) (caller betId : Nat) (st : BetStatus) : DB :=
  match db.bets.find? (fun b => b.id == betId && b.user_id == caller) with
  | none => db
  | some old =>
    let p := update_bank_balance db { old with status := st }
    { p.1 with
      bets := p.1.bets.map (fun b =>
        if b.id == betId && b.user_id == caller then p.2 else b) }

/-- `DELETE FROM public.bets WHERE id = betId` under the DELETE policy
`USING (auth.uid() = user_id)`.  No trigger is installed on DELETE
(Layout.tsx lines 308-310 install the trigger for `BEFORE INSERT OR
UPDATE` only), so only the row is removed. -/
def deleteBet (db : DB) (caller betId : Nat) : DB :=
  { db with bets := db.bets.filter (fun b => !(b.id == betId && b.user_id == caller)) }

/-- SELECT on `public.bets` under the policy `USING (auth.uid() = user_id)`:
the caller sees exactly their own rows. -/
def selectBets (db : DB) (caller : Nat) : List Bet :=
  db.bets.filter (fun b => b.user_id == caller)

/-- SELECT on `public.banks` under the policy `USING (auth.uid() = user_id)`. -/
def selectBanks (db : DB) (caller : Nat) : List Bank :=
  db.banks.filter (fun bk => bk.user_id == caller)

/-- Current balance of the bank with the given id, if present. -/
def bankBalance (db : DB) (bankId : Nat) : Option ℚ :=
  (db.banks.find? (fun bk => bk.id == bankId)).map (fun bk => bk.current_balance)

/-- Spec invariant for claim C1: every bankroll's current balance equals
its initial balance plus the profit sum over its non-open wagers (of the
current, post-operation table). -/
def balanceInvariant (db : DB) : Prop :=
  ∀ bk ∈ db.banks, bk.current_balance = bk.initial_balance + profitSum db.bets bk.id

instance (db : DB) : Decidable (balanceInvariant db) := by
  unfold balanceInvariant; infer_instance

/-- C3: for all stake > 0 and odds ≥ 1 the Settlement Engine computes
`stake * odds - stake` for a won bet, `-stake` for a lost bet and `0` for
an open bet, exactly as the profit branch of `update_bank_balance` does. -/
theorem settle_formula (stake odds : ℚ) (hs : 0 < stake) (ho : 1 ≤ odds) :
    computeProfit stake odds BetStatus.won = stake * odds - stake ∧
    computeProfit stake odds BetStatus.lost = -stake ∧
    computeProfit stake odds BetStatus.open_ = 0 :=
  ⟨rfl, rfl, rfl⟩

/-- Witness for C3 at stake 100, odds 5/2. -/
theorem settle_formula_witness :
    (0 : ℚ) < 100 ∧ (1 : ℚ) ≤ 5 / 2 ∧
    (computeProfit 100 (5 / 2) BetStatus.won = 100 * (5 / 2) - 100 ∧
     computeProfit 100 (5 / 2) BetStatus.lost = -100 ∧
     computeProfit 100 (5 / 2) BetStatus.open_ = 0) :=
  ⟨by norm_num, by norm_num, settle_formula 100 (5 / 2) (by norm_num) (by norm_num)⟩

/-! Concrete states for the ledger claims.  PostgreSQL's BEFORE row
triggers see the table without the pending write, so the balance written
by `update_bank_balance` always reflects the state one operation behind,
and DELETE never fires the trigger at all. -/

/-- C1 input: one bank, initial and current balance 1000, no bets. -/
def dbC1 : DB := { banks := [⟨1, 1, 1000, 1000⟩], bets := [] }

/-- C1 input: a won bet of stake 100 at odds 5/2 on bank 1. -/
def betC1 : Bet := ⟨10, 1, 1, 100, 5 / 2, .won, none, 0, 0⟩

/-- C1: the claimed invariant `current_balance = initial_balance +
Σ profit over non-open wagers` fails already after the first insert: the
stored wager carries profit 150, but the BEFORE INSERT trigger computed
the bank balance from the table before the row existed, leaving 1000. -/
theorem insert_breaks_balance_invariant :
    bankBalance (insertBet dbC1 1 betC1) 1 = some 1000 ∧
    profitSum (insertBet dbC1 1 betC1).bets 1 = 150 ∧
    ¬ balanceInvariant (insertBet dbC1 1 betC1) := by
  norm_num [dbC1, betC1, insertBet, update_bank_balance, reconcileBanks, profitSum,
    computeProfit, bankBalance, balanceInvariant, isOpenStatus]

/-- C2 input state: one bank with initial balance 1000. -/
def dbC2 : DB := { banks := [⟨1, 1, 1000, 1000⟩], bets := [] }

/-- C2 first wager: stake 100, odds 5/2, won. -/
def betC2a : Bet := ⟨10, 1, 1, 100, 5 / 2, .won, none, 0, 0⟩

/-- C2 second wager: stake 50, odds 9/5, lost. -/
def betC2b : Bet := ⟨11, 1, 1, 50, 9 / 5, .lost, none, 0, 1⟩

/-- C2 state after inserting the first wager. -/
def sC2a : DB := insertBet dbC2 1 betC2a

/-- C2 state after inserting the second wager. -/
def sC2b : DB := insertBet sC2a 1 betC2b

/-- C2 state after reopening the first wager. -/
def sC2c : DB := updateBetStatus sC2b 1 10 .open_

/-- C2: the reconciler does NOT read the just-committed wager state.  On
the spec's end-to-end scenario the profits are computed as claimed (150
and -50), but each balance reflects the previous operation's state: the
code yields 1000, 1150, 1100 where the claim demands 1150, 1100, 1050. -/
theorem reconciler_reads_prewrite_state :
    (sC2a.bets.map Bet.profit = [some 150] ∧
     sC2b.bets.map Bet.profit = [some 150, some (-50)] ∧
     sC2c.bets.map (fun b => (b.id, b.profit)) = [(10, some 0), (11, some (-50))]) ∧
    bankBalance sC2a 1 = some 1000 ∧
    bankBalance sC2b 1 = some 1150 ∧
    bankBalance sC2c 1 = some 1100 ∧
    ¬ (bankBalance sC2a 1 = some 1150 ∧
       bankBalance sC2b 1 = some 1100 ∧
       bankBalance sC2c 1 = some 1050) := by
  norm_num [sC2a, sC2b, sC2c, dbC2, betC2a, betC2b, insertBet, updateBetStatus,
    update_bank_balance, reconcileBanks, profitSum, computeProfit, bankBalance, isOpenStatus]

/-- C4 input: a bank whose balance 1150 correctly reflects its single
settled wager of profit 150. -/
def dbC4 : DB :=
  { banks := [⟨1, 1, 1000, 1150⟩],
    bets := [⟨10, 1, 1, 100, 5 / 2, .won, some 150, 0, 0⟩] }

/-- C4: deleting a wager does not trigger balance reconciliation.  The
trigger is installed `BEFORE INSERT OR UPDATE` only, so `deleteBet` never
touches the banks table: starting from a consistent state, deleting the
only settled wager leaves the balance at 1150 instead of recomputing 1000,
breaking the invariant. -/
theorem delete_skips_reconciliation :
    (∀ (db : DB) (caller betId : Nat), (deleteBet db caller betId).banks = db.banks) ∧
    (deleteBet dbC4 1 10).bets = [] ∧
    bankBalance (deleteBet dbC4 1 10) 1 = some 1150 ∧
    balanceInvariant dbC4 ∧
    ¬ balanceInvariant (deleteBet dbC4 1 10) := by
  refine ⟨fun db c i => rfl, ?_, ?_, ?_, ?_⟩ <;>
    norm_num [dbC4, deleteBet, bankBalance, balanceInvariant, profitSum, isOpenStatus]

/-- Reconciling the same bankroll twice over the same wager state writes
the same balance: the bank update depends only on `initial_balance` and
the wager table, both untouched by the update itself. -/
theorem reconcileBanks_idem (banks : List Bank) (bets : List Bet) (bankId : Nat) :
    reconcileBanks (reconcileBanks banks bets bankId) bets bankId =
      reconcileBanks banks bets bankId := by
  induction banks with
  | nil => rfl
  | cons bk tl ih =>
    simp only [reconcileBanks, List.map_cons] at ih ⊢
    refine congrArg₂ List.cons ?_ ih
    by_cases h : bk.id == bankId <;> simp [h]

/-- C5: the Balance Reconciler is idempotent: applying the reconciliation
step twice in a row for the same bankroll over the same committed wager
state produces the same state (hence the same current balance) as
applying it once. -/
theorem reconcile_idempotent (db : DB) (bankId : Nat) :
    reconcile (reconcile db bankId) bankId = reconcile db bankId := by
  simp [reconcile, reconcileBanks_idem]

/-- Wager-profit invariant for claim C6: every stored wager's `profit`
column holds exactly the Settlement Engine's function of its own
`(amount, odds, status)`. -/
def profitInvariant (db : DB) : Prop :=
  ∀ b ∈ db.bets, b.profit = some (computeProfit b.amount b.odds b.status)

/-- C6: the `BEFORE INSERT OR UPDATE` trigger overwrites `NEW.profit`
from `(amount, odds, status)` on every write, so no write path (insert
with any client-supplied profit, outcome update, delete) can leave a row
whose profit differs from the Settlement Engine's result. -/
theorem profit_always_settlement_function (db : DB) (h : profitInvariant db)
    (caller betId : Nat) (st : BetStatus) (new : Bet) :
    profitInvariant (insertBet db caller new) ∧
    profitInvariant (updateBetStatus db caller betId st) ∧
    profitInvariant (deleteBet db caller betId) := by
  refine ⟨?_, ?_, ?_⟩
  · unfold insertBet
    split
    · intro b hb
      simp only [update_bank_balance, List.mem_append, List.mem_singleton] at hb
      rcases hb with hb | rfl
      · exact h b hb
      · rfl
    · exact h
  · unfold updateBetStatus
    split
    · exact h
    · intro b hb
      simp only [update_bank_balance, List.mem_map] at hb
      obtain ⟨a, ha, hfa⟩ := hb
      by_cases hc : (a.id == betId && a.user_id == caller) = true
      · rw [hc] at hfa
        simp only [if_true] at hfa
        subst hfa
        rfl
      · rw [Bool.not_eq_true] at hc
        rw [hc] at hfa
        simp only [Bool.false_eq_true, if_false] at hfa
        subst hfa
        exact h a ha
  · intro b hb
    exact h b (List.mem_of_mem_filter hb)

/-- Witness state for C6: a bank and one correctly settled wager. -/
def dbC6 : DB :=
  { banks := [⟨1, 1, 1000, 1100⟩],
    bets := [⟨10, 1, 1, 100, 2, .won, some 100, 0, 0⟩] }

/-- Witness wager for C6, carrying a bogus client-supplied profit that the
trigger must overwrite. -/
def betC6 : Bet := ⟨11, 1, 1, 50, 3, .lost, some 999, 1, 1⟩

/-- Witness for C6 at a concrete state and wager. -/
theorem profit_always_settlement_function_witness :
    profitInvariant dbC6 ∧
    (profitInvariant (insertBet dbC6 1 betC6) ∧
     profitInvariant (updateBetStatus dbC6 1 10 BetStatus.lost) ∧
     profitInvariant (deleteBet dbC6 1 10)) := by
  have h : profitInvariant dbC6 := by
    intro b hb
    simp only [dbC6, List.mem_singleton] at hb
    subst hb
    simp [computeProfit]
    norm_num
  exact ⟨h, profit_always_settlement_function dbC6 h 1 10 BetStatus.lost betC6⟩

/-- Page size of the history page: `ITEMS_PER_PAGE = 10` (History.tsx
line 33). -/
def ITEMS_PER_PAGE : Nat := 10

/-- Ordering of the history query `.order("bet_date", { ascending: false
}).order("created_at", { ascending: false })` (History.tsx lines 93-94):
`a` may precede `b` iff `a`'s settlement date is later, or the dates are
equal and `a`'s creation timestamp is later or equal. -/
def betBefore (a b : Bet) : Bool :=
  decide (b.bet_date < a.bet_date) ||
    (b.bet_date == a.bet_date && decide (b.created_at ≤ a.created_at))

/-- Structural boolean equality on bet outcomes. -/
def statusEq : BetStatus → BetStatus → Bool
  | .won, .won => true
  | .lost, .lost => true
  | .open_, .open_ => true
  | _, _ => false

/-- The optional status filter of the history page (History.tsx lines
88-90): `none` models `statusFilter == "all"`, where no `.eq("status", _)`
clause is added. -/
def matchesFilter (filt : Option BetStatus) (b : Bet) : Bool :=
  match filt with
  | none => true
  | some s => statusEq b.status s

/-- The rows matching the history query before windowing: `.eq("bank_id",
selectedBank)` plus the optional status filter; its length is the
`{ count: "exact" }` total. -/
def matchingBets (bets : List Bet) (bankId : Nat) (filt : Option BetStatus) : List Bet :=
  bets.filter (fun b => b.bank_id == bankId && matchesFilter filt b)

/-- The history query `fetchBets` (History.tsx lines 81-108): filter,
order by settlement date then creation timestamp (both descending), and
window with `.range((page-1)*ITEMS_PER_PAGE, page*ITEMS_PER_PAGE - 1)`
(an inclusive offset range of ITEMS_PER_PAGE rows); returns the page
together with the exact count of matching rows. -/
def fetchBets (bets : List Bet) (bankId : Nat) (filt : Option BetStatus)
    (page : Nat) : List Bet × Nat :=
  let m := matchingBets bets bankId filt
  let sorted := m.mergeSort betBefore
  ((sorted.drop ((page - 1) * ITEMS_PER_PAGE)).take ITEMS_PER_PAGE, m.length)

/-- Transitivity of the history ordering. -/
theorem betBefore_trans (a b c : Bet) :
    betBefore a b → betBefore b c → betBefore a c := by
  simp only [betBefore, Bool.or_eq_true, Bool.and_eq_true, decide_eq_true_eq, beq_iff_eq]
  omega

/-- Totality of the history ordering. -/
theorem betBefore_total (a b : Bet) : betBefore a b || betBefore b a := by
  simp only [betBefore, Bool.or_eq_true, Bool.and_eq_true, decide_eq_true_eq, beq_iff_eq]
  omega

/-- C7: for any page `p ≥ 1` over `T` matching wagers, the history page
returns the exact matching count `T`, exactly `min ITEMS_PER_PAGE (T -
(p-1)*ITEMS_PER_PAGE)` items (natural subtraction: 0 when `p` exceeds the
page count), and the items are pairwise ordered by settlement date
descending, then creation timestamp descending. -/
theorem history_page_window (bets : List Bet) (bankId : Nat)
    (filt : Option BetStatus) (page : Nat) (hp : 1 ≤ page) :
    (fetchBets bets bankId filt page).2 = (matchingBets bets bankId filt).length ∧
    (fetchBets bets bankId filt page).1.length =
      min ITEMS_PER_PAGE
        ((matchingBets bets bankId filt).length - (page - 1) * ITEMS_PER_PAGE) ∧
    (fetchBets bets bankId filt page).1.Pairwise (fun a b => betBefore a b = true) := by
  refine ⟨rfl, ?_, ?_⟩
  · simp [fetchBets, List.length_take, List.length_drop]
  · have hs : ((matchingBets bets bankId filt).mergeSort betBefore).Pairwise
        (fun a b => betBefore a b = true) :=
      List.sorted_mergeSort betBefore_trans betBefore_total _
    exact List.Pairwise.sublist
      ((List.take_sublist _ _).trans (List.drop_sublist _ _)) hs

/-- Witness wager list for C7. -/
def betsC7 : List Bet :=
  [⟨10, 1, 1, 100, 2, .won, some 100, 3, 0⟩,
   ⟨11, 1, 1, 50, 3, .lost, some (-50), 1, 1⟩,
   ⟨12, 1, 1, 20, 2, .open_, some 0, 3, 2⟩,
   ⟨13, 2, 1, 10, 2, .open_, some 0, 2, 3⟩]

/-- Witness for C7 at page 1 of bank 1 with no status filter. -/
theorem history_page_window_witness :
    1 ≤ 1 ∧
    ((fetchBets betsC7 1 none 1).2 = (matchingBets betsC7 1 none).length ∧
     (fetchBets betsC7 1 none 1).1.length =
       min ITEMS_PER_PAGE
         ((matchingBets betsC7 1 none).length - (1 - 1) * ITEMS_PER_PAGE) ∧
     (fetchBets betsC7 1 none 1).1.Pairwise (fun a b => betBefore a b = true)) :=
  ⟨by decide, history_page_window betsC7 1 none 1 (by decide)⟩

/-- Validation failures of the NewBet form (DailyBets.tsx lines 397-422):
non-positive amount, odds below 1, or no bank selected. -/
inductive ValidationError where
  | nonPositiveAmount
  | oddsBelowOne
  | missingBank
  deriving DecidableEq

/-- The NewBet submit handler `handleSubmit` (DailyBets.tsx lines
391-438): it checks `betAmount <= 0`, then `betOdds < 1`, then `!bankId`,
in that order, returning an error toast and aborting BEFORE the insert on
the first violation; only when all checks pass does it insert the wager
with the caller's identity.  The `isNaN` halves of the first two checks
concern floating-point parsing and have no counterpart in `ℚ`; an empty
`bankId` string is modelled as `none`. -/
def handleSubmit (db : DB) (caller : Nat) (bankId : Option Nat) (amount odds : ℚ)
    (st : BetStatus) (betDate newId createdAt : Nat) : DB × Option ValidationError :=
  if amount ≤ 0 then (db, some .nonPositiveAmount)
  else if odds < 1 then (db, some .oddsBelowOne)
  else
    match bankId with
    | none => (db, some .missingBank)
    | some bid =>
      (insertBet db caller
        { id := newId, bank_id := bid, user_id := caller, amount := amount,
          odds := odds, status := st, profit := none, bet_date := betDate,
          created_at := createdAt }, none)

/-- C8: a wager with non-positive stake, odds below 1, or no selected
bank is rejected with an error naming a violated constraint, and the
returned state is the input state: neither the wager store nor any
bankroll balance changes. -/
theorem invalid_wager_rejected_before_write (db : DB) (caller : Nat)
    (bankId : Option Nat) (amount odds : ℚ) (st : BetStatus)
    (betDate newId createdAt : Nat)
    (h : amount ≤ 0 ∨ odds < 1 ∨ bankId = none) :
    (handleSubmit db caller bankId amount odds st betDate newId createdAt).1 = db ∧
    ∃ e, (handleSubmit db caller bankId amount odds st betDate newId createdAt).2 = some e ∧
      (match e with
       | .nonPositiveAmount => amount ≤ 0
       | .oddsBelowOne => odds < 1
       | .missingBank => bankId = none) := by
  unfold handleSubmit
  split
  next h1 => exact ⟨rfl, .nonPositiveAmount, rfl, h1⟩
  next h1 =>
    split
    next h2 => exact ⟨rfl, .oddsBelowOne, rfl, h2⟩
    next h2 =>
      split
      next => exact ⟨rfl, .missingBank, rfl, rfl⟩
      next bid =>
        rcases h with h | h | h
        · exact absurd h h1
        · exact absurd h h2
        · exact Option.noConfusion h

/-- Witness state for C8. -/
def dbC8 : DB := { banks := [⟨1, 1, 500, 500⟩], bets := [] }

/-- Witness for C8: submitting a wager of stake 0 is rejected with the
stake constraint and leaves the state untouched. -/
theorem invalid_wager_rejected_before_write_witness :
    ((0 : ℚ) ≤ 0 ∨ (2 : ℚ) < 1 ∨ (some 1 : Option Nat) = none) ∧
    ((handleSubmit dbC8 1 (some 1) 0 2 BetStatus.open_ 0 10 0).1 = dbC8 ∧
     ∃ e, (handleSubmit dbC8 1 (some 1) 0 2 BetStatus.open_ 0 10 0).2 = some e ∧
       (match e with
        | .nonPositiveAmount => (0 : ℚ) ≤ 0
        | .oddsBelowOne => (2 : ℚ) < 1
        | .missingBank => (some 1 : Option Nat) = none)) :=
  ⟨Or.inl le_rfl,
   invalid_wager_rejected_before_write dbC8 1 (some 1) 0 2 BetStatus.open_ 0 10 0
     (Or.inl le_rfl)⟩

/-- C9 input: a single bank owned by user 1, no bets. -/
def dbC9 : DB := { banks := [⟨1, 1, 1000, 1000⟩], bets := [] }

/-- C9 first wager of caller 2: a won bet referencing user 1's bank.  The
bets INSERT policy `WITH CHECK (auth.uid() = user_id)` only checks
`user_id`; nothing checks that the referenced bank belongs to the
caller. -/
def betC9a : Bet := ⟨10, 1, 2, 100, 2, .won, none, 0, 0⟩

/-- C9 second wager of caller 2 on the same foreign bank. -/
def betC9b : Bet := ⟨11, 1, 2, 5, 2, .open_, none, 0, 1⟩

/-- C9: ownership isolation is violated through the bank reference.  The
`SECURITY DEFINER` trigger updates the referenced bank without row
security, so caller 2 — who cannot even SELECT user 1's bank — mutates
its `current_balance` from 1000 to 1100 by inserting two wagers whose
`bank_id` points at it (both inserts pass the `WITH CHECK (auth.uid() =
user_id)` policy because their `user_id` is caller 2's own). -/
theorem cross_owner_bank_mutation :
    dbC9.banks.map Bank.user_id = [1] ∧
    selectBanks dbC9 2 = [] ∧
    bankBalance dbC9 1 = some 1000 ∧
    bankBalance (insertBet (insertBet dbC9 2 betC9a) 2 betC9b) 1 = some 1100 := by
  norm_num [dbC9, betC9a, betC9b, insertBet, update_bank_balance, reconcileBanks,
    profitSum, computeProfit, bankBalance, selectBanks, isOpenStatus]

/-- Daily aggregate of the dashboard (`fetchDailyStats`, part_000 lines
89-116). -/
structure DailyStats where
  total_bets : Nat
  total_won : Nat
  total_lost : Nat
  net_profit : ℚ
  deriving DecidableEq

/-- One step of the `reduce` in `fetchDailyStats` (part_000 lines
101-114): every bet counts into `total_bets`; a won (resp. lost) bet
increments `total_won` (resp. `total_lost`) and adds `bet.profit || 0` to
`net_profit` — the JavaScript `|| 0` coerces a null profit to 0 — while
an open bet adds nothing further. -/
def dailyStatsStep (acc : DailyStats) (bet : Bet) : DailyStats :=
  let acc1 := { acc with total_bets := acc.total_bets + 1 }
  match bet.status with
  | .won =>
    { acc1 with total_won := acc1.total_won + 1,
                net_profit := acc1.net_profit + bet.profit.getD 0 }
  | .lost =>
    { acc1 with total_lost := acc1.total_lost + 1,
                net_profit := acc1.net_profit + bet.profit.getD 0 }
  | .open_ => acc1

/-- The dashboard query plus reduce: select the caller's bets with the
given bank and date (`.eq("bank_id", bankId).eq("bet_date", today)`),
then fold `dailyStatsStep` from zero. -/
def fetchDailyStats (bets : List Bet) (bankId date : Nat) : DailyStats :=
  (bets.filter (fun b => b.bank_id == bankId && b.bet_date == date)).foldl
    dailyStatsStep ⟨0, 0, 0, 0⟩

/-- Daily summary of the DailyBets page (`calculateDailySummary`,
DailyBets.tsx lines 122-138). -/
structure DailySummary where
  total : Nat
  won : Nat
  lost : Nat
  profit : ℚ
  wagered : ℚ
  deriving DecidableEq

/-- One step of the `reduce` in `calculateDailySummary` (DailyBets.tsx
lines 123-137): like the dashboard reduce, with `bet.profit || 0` for the
profit and additionally accumulating the total `wagered` amount. -/
def dailySummaryStep (acc : DailySummary) (bet : Bet) : DailySummary :=
  let acc1 := { acc with total := acc.total + 1 }
  let acc2 :=
    match bet.status with
    | .won =>
      { acc1 with won := acc1.won + 1, profit := acc1.profit + bet.profit.getD 0 }
    | .lost =>
      { acc1 with lost := acc1.lost + 1, profit := acc1.profit + bet.profit.getD 0 }
    | .open_ => acc1
  { acc2 with wagered := acc2.wagered + bet.amount }

/-- Fold of `dailySummaryStep` over the bets fetched for one bank and
date (DailyBets.tsx line 122). -/
def calculateDailySummary (bets : List Bet) : DailySummary :=
  bets.foldl dailySummaryStep ⟨0, 0, 0, 0, 0⟩

/-- C10: in both daily aggregates, a won-or-lost wager with a null stored
profit is counted but contributes 0 to the net profit, and an open wager
is counted in the total while leaving the won count, lost count and net
profit unchanged. -/
theorem daily_aggregate_null_and_open (bets : List Bet) (bankId date : Nat)
    (b : Bet) (hbank : b.bank_id = bankId) (hdate : b.bet_date = date) :
    ((b.status = .won ∨ b.status = .lost) → b.profit = none →
      (fetchDailyStats (bets ++ [b]) bankId date).net_profit =
        (fetchDailyStats bets bankId date).net_profit ∧
      (fetchDailyStats (bets ++ [b]) bankId date).total_bets =
        (fetchDailyStats bets bankId date).total_bets + 1 ∧
      (calculateDailySummary (bets ++ [b])).profit =
        (calculateDailySummary bets).profit) ∧
    (b.status = .open_ →
      (fetchDailyStats (bets ++ [b]) bankId date).total_bets =
        (fetchDailyStats bets bankId date).total_bets + 1 ∧
      (fetchDailyStats (bets ++ [b]) bankId date).total_won =
        (fetchDailyStats bets bankId date).total_won ∧
      (fetchDailyStats (bets ++ [b]) bankId date).total_lost =
        (fetchDailyStats bets bankId date).total_lost ∧
      (fetchDailyStats (bets ++ [b]) bankId date).net_profit =
        (fetchDailyStats bets bankId date).net_profit ∧
      (calculateDailySummary (bets ++ [b])).total =
        (calculateDailySummary bets).total + 1 ∧
      (calculateDailySummary (bets ++ [b])).won = (calculateDailySummary bets).won ∧
      (calculateDailySummary (bets ++ [b])).lost = (calculateDailySummary bets).lost ∧
      (calculateDailySummary (bets ++ [b])).profit =
        (calculateDailySummary bets).profit) := by
  have hfil : (bets ++ [b]).filter (fun x => x.bank_id == bankId && x.bet_date == date) =
      bets.filter (fun x => x.bank_id == bankId && x.bet_date == date) ++ [b] := by
    simp [List.filter_append, hbank, hdate]
  constructor
  · rintro (hw | hl) hn
    · simp [fetchDailyStats, hfil, List.foldl_append, dailyStatsStep, hw, hn,
        calculateDailySummary, dailySummaryStep]
    · simp [fetchDailyStats, hfil, List.foldl_append, dailyStatsStep, hl, hn,
        calculateDailySummary, dailySummaryStep]
  · intro ho
    simp [fetchDailyStats, hfil, List.foldl_append, dailyStatsStep, ho,
      calculateDailySummary, dailySummaryStep]

/-- Witness bet for C10: won with a null profit. -/
def betC10 : Bet := ⟨10, 1, 1, 100, 2, .won, none, 5, 0⟩

/-- Witness for C10 at concrete bets. -/
theorem daily_aggregate_null_and_open_witness :
    (betC10.bank_id = 1 ∧ betC10.bet_date = 5) ∧
    (((betC10.status = .won ∨ betC10.status = .lost) → betC10.profit = none →
      (fetchDailyStats ([] ++ [betC10]) 1 5).net_profit =
        (fetchDailyStats [] 1 5).net_profit ∧
      (fetchDailyStats ([] ++ [betC10]) 1 5).total_bets =
        (fetchDailyStats [] 1 5).total_bets + 1 ∧
      (calculateDailySummary ([] ++ [betC10])).profit =
        (calculateDailySummary []).profit) ∧
     (betC10.status = .open_ →
      (fetchDailyStats ([] ++ [betC10]) 1 5).total_bets =
        (fetchDailyStats [] 1 5).total_bets + 1 ∧
      (fetchDailyStats ([] ++ [betC10]) 1 5).total_won =
        (fetchDailyStats [] 1 5).total_won ∧
      (fetchDailyStats ([] ++ [betC10]) 1 5).total_lost =
        (fetchDailyStats [] 1 5).total_lost ∧
      (fetchDailyStats ([] ++ [betC10]) 1 5).net_profit =
        (fetchDailyStats [] 1 5).net_profit ∧
      (calculateDailySummary ([] ++ [betC10])).total =
        (calculateDailySummary []).total + 1 ∧
      (calculateDailySummary ([] ++ [betC10])).won = (calculateDailySummary []).won ∧
      (calculateDailySummary ([] ++ [betC10])).lost = (calculateDailySummary []).lost ∧
      (calculateDailySummary ([] ++ [betC10])).profit =
        (calculateDailySummary []).profit)) :=
  ⟨⟨rfl, rfl⟩, daily_aggregate_null_and_open [] 1 5 betC10 rfl rfl⟩

end BetTracker
